import Mathlib

/-!
Shallow embedding of the voice-chat core (the `VoiceChat` component): the
Connection Table (`peersRef`), local stream (`localStreamRef`), the per-peer
mute map (`remoteMutedMap`), and the operations `createPeerConnection`,
`cleanupPeer`, `handleOffer`, `handleAnswer`, `joinVoice`, `leaveVoice`,
`toggleLocalMute`, `toggleRemoteMute`, and the membership-reactor step that
initiates an offer to a newly observed user.

Modelling conventions:
- JavaScript objects keyed by socket id (`Record<string, T>`) become
  association lists `List (String × T)`; `obj[k] = v` is `setKey`, `delete
  obj[k]` is `delKey`, `obj[k]` is `lookupKey`.
- Session descriptions and ICE payloads are opaque `Nat`s.
- Object identity of transports and audio elements is a fresh `Nat` id drawn
  from a `nextId` counter, so "a new transport was created" is observable.
- Asynchronous browser operations that can fail (`getUserMedia`,
  `setRemoteDescription`, `createOffer`/`createAnswer`/`setLocalDescription`,
  `pc.close`, DOM detach) are resolved by an `Env` record; a JS `throw` is an
  `Except.error`, a `try {} catch {}` is a total match on it.
- `console.error` / `console.warn` append to `consoleLog`; `socket.emit`
  appends to `outbox`; appending an audio element to the hidden container
  appends its id to `domEls`; `track.stop()` records the track id in
  `stoppedTracks` (the stream reference itself is dropped).
- Mutation-then-throw is modelled by returning the post-mutation state next
  to the `Except` result, since a JS exception does not roll state back.
-/

/-- A media track of the captured stream: its identity and enabled state. -/
structure Track where
  id : Nat
  enabled : Bool
deriving DecidableEq, Repr

/-- The captured local audio stream: a list of tracks. -/
structure MediaStream where
  tracks : List Track
deriving DecidableEq, Repr

/-- The per-peer transport (`RTCPeerConnection`): identity, negotiated
descriptions, and how many local tracks were attached via `addTrack`. -/
structure RTCPeerConnection where
  id : Nat
  closed : Bool
  localDesc : Option Nat
  remoteDesc : Option Nat
  addedTracks : Nat
deriving DecidableEq, Repr

/-- The playback sink: the hidden `<audio>` element created per peer. -/
structure AudioEl where
  id : Nat
  muted : Bool
  srcObject : Option Nat
deriving DecidableEq, Repr

/-- One entry of the Connection Table (`PeerEntry` in the source). -/
structure PeerEntry where
  pc : RTCPeerConnection
  audioEl : AudioEl
  muted : Bool
deriving DecidableEq, Repr

/-- An outbound signaling message handed to `socket.emit`. -/
inductive OutMsg where
  | voiceOffer (payload : Nat) (target : String)
  | voiceAnswer (payload : Nat) (target : String)
  | voiceIceCandidate (payload : Nat) (target : String)
deriving DecidableEq, Repr

/-- The whole observable state of the component: refs, React state, DOM
side effects, emitted messages, console output. -/
structure VoiceState where
  localStream : Option MediaStream
  peers : List (String × PeerEntry)
  joined : Bool
  localMuted : Bool
  remoteMutedMap : List (String × Bool)
  nextId : Nat
  domEls : List Nat
  stoppedTracks : List Nat
  outbox : List OutMsg
  consoleLog : List String
deriving DecidableEq, Repr

/-- Resolution of the asynchronous browser operations an execution hits:
`gum` is the result of `navigator.mediaDevices.getUserMedia({audio:true})`
(`none` = denial), the `Ok` flags say whether the corresponding transport
operations succeed, the `Throws` flags whether `pc.close()` / the DOM detach
throw (both are swallowed by `try {} catch {}` in the source), and the
payload fields are the opaque descriptions `createAnswer` / `createOffer`
produce. `selfId` is `socket.id`. -/
structure Env where
  gum : Option MediaStream
  setRemoteOk : Bool
  negotiateOk : Bool
  closeThrows : Bool
  detachThrows : Bool
  answerPayload : Nat
  offerPayload : Nat
  selfId : String
deriving DecidableEq, Repr

/-- `obj[k]` on a string-keyed record. -/
def lookupKey {α : Type} (k : String) : List (String × α) → Option α
  | [] => none
  | (k', v) :: t => if k' = k then some v else lookupKey k t

/-- `delete obj[k]` on a string-keyed record. -/
def delKey {α : Type} (k : String) : List (String × α) → List (String × α)
  | [] => []
  | (k', v) :: t => if k' = k then delKey k t else (k', v) :: delKey k t

/-- `obj[k] = v` on a string-keyed record (overwrite). -/
def setKey {α : Type} (k : String) (v : α) (l : List (String × α)) :
    List (String × α) :=
  (k, v) :: delKey k l

/-- `Object.keys obj`. -/
def keysOf {α : Type} (l : List (String × α)) : List String :=
  l.map Prod.fst

/-- How many entries of the record carry key `k` (a record has at most 1). -/
def countKey {α : Type} (k : String) (l : List (String × α)) : Nat :=
  (l.filter (fun kv => decide (kv.1 = k))).length

/-- Final step of `createPeerConnection` (source lines 59-64): attach every
local track to the transport, register the entry in the Connection Table and
initialize the remote-mute state for that peer to `false`. -/
def finishBuild (s : VoiceState) (stream : MediaStream)
    (pc : RTCPeerConnection) (audioEl : AudioEl) (remoteSocketId : String) :
    VoiceState × Except String PeerEntry :=
  let pc := { pc with addedTracks := stream.tracks.length }
  let entry : PeerEntry := { pc := pc, audioEl := audioEl, muted := false }
  ({ s with
      peers := setKey remoteSocketId entry s.peers,
      remoteMutedMap := setKey remoteSocketId false s.remoteMutedMap },
   Except.ok entry)

/-- `createPeerConnection(remoteSocketId)` (source lines 30-65): create a
fresh transport and audio element, append the element to the hidden
container, lazily acquire the microphone if no local stream is held (on
denial: log and rethrow), then attach tracks and register the entry. The
returned state reflects all mutations made before a throw. -/
def createPeerConnection (env : Env) (s : VoiceState)
    (remoteSocketId : String) : VoiceState × Except String PeerEntry :=
  let pc : RTCPeerConnection :=
    { id := s.nextId, closed := false, localDesc := none, remoteDesc := none,
      addedTracks := 0 }
  let audioEl : AudioEl := { id := s.nextId + 1, muted := false, srcObject := none }
  let s1 : VoiceState :=
    { s with nextId := s.nextId + 2, domEls := s.domEls ++ [audioEl.id] }
  match s1.localStream with
  | some stream => finishBuild s1 stream pc audioEl remoteSocketId
  | none =>
    match env.gum with
    | none =>
      ({ s1 with consoleLog := s1.consoleLog ++ ["Microphone access denied"] },
       Except.error "CaptureDenied")
    | some stream =>
      finishBuild { s1 with localStream := some stream } stream pc audioEl
        remoteSocketId

/-- `cleanupPeer(socketId)` (source lines 68-84): if no entry, return;
otherwise close the transport and detach the audio element — both wrapped in
`try {} catch {}`, so a throw there is swallowed and the function still
removes the entry from the Connection Table and the remote-mute map. Total by
construction: it never raises. -/
def cleanupPeer (env : Env) (s : VoiceState) (socketId : String) : VoiceState :=
  match lookupKey socketId s.peers with
  | none => s
  | some entry =>
    -- pc.close() may throw (env.closeThrows); the catch block is empty, so
    -- neither outcome changes observable state and the entry object is
    -- dropped from the table below in both cases.
    let domEls :=
      if env.detachThrows then s.domEls else s.domEls.erase entry.audioEl.id
    { s with
        peers := delKey socketId s.peers,
        remoteMutedMap := delKey socketId s.remoteMutedMap,
        domEls := domEls }

/-- Replace the transport of the table entry for `k`, modelling a mutation of
the shared `entry.pc` object through the alias held by the table. -/
def updatePC (s : VoiceState) (k : String)
    (f : RTCPeerConnection → RTCPeerConnection) : VoiceState :=
  match lookupKey k s.peers with
  | none => s
  | some e => { s with peers := setKey k { e with pc := f e.pc } s.peers }

/-- `handleOffer` (source lines 88-98): unconditionally build a connection
for the sender (no existing-entry check), set the remote description, create
and set a local answer, emit `VOICE_ANSWER`. The whole body sits in one
`try {} catch {}`: any failure is logged and dropped, keeping the mutations
made up to the failure point. -/
def handleOffer (env : Env) (s : VoiceState) (offer : Nat)
    (senderSocketId : String) : VoiceState :=
  match createPeerConnection env s senderSocketId with
  | (s1, Except.error _) =>
    { s1 with consoleLog := s1.consoleLog ++ ["Failed handling offer"] }
  | (s1, Except.ok _) =>
    if env.setRemoteOk then
      let s2 := updatePC s1 senderSocketId
        (fun pc => { pc with remoteDesc := some offer })
      if env.negotiateOk then
        let s3 := updatePC s2 senderSocketId
          (fun pc => { pc with localDesc := some env.answerPayload })
        { s3 with
            outbox := s3.outbox ++ [OutMsg.voiceAnswer env.answerPayload senderSocketId] }
      else { s2 with consoleLog := s2.consoleLog ++ ["Failed handling offer"] }
    else { s1 with consoleLog := s1.consoleLog ++ ["Failed handling offer"] }

/-- `handleAnswer` (source lines 100-108): look up the sender's entry; if
absent, return (stale answer dropped). If present, set the remote
description; a failure is logged (`console.warn`) and dropped, the entry
stays in the table. -/
def handleAnswer (env : Env) (s : VoiceState) (answer : Nat)
    (senderSocketId : String) : VoiceState :=
  match lookupKey senderSocketId s.peers with
  | none => s
  | some e =>
    if env.setRemoteOk then
      { s with
          peers := setKey senderSocketId
            { e with pc := { e.pc with remoteDesc := some answer } } s.peers }
    else
      { s with consoleLog := s.consoleLog ++ ["Failed to set remote answer"] }

/-- `joinVoice` (source lines 163-173): no-op when already joined; otherwise
acquire the microphone; on success set the stream, `joined = true`,
`localMuted = false`. On denial the error is caught, logged, and NOT
rethrown: the function resolves normally, so the `Except.error` branch of
the result type is never taken. -/
def joinVoice (env : Env) (s : VoiceState) : Except String VoiceState :=
  if s.joined then Except.ok s
  else
    match env.gum with
    | some stream =>
      Except.ok { s with localStream := some stream, joined := true, localMuted := false }
    | none =>
      Except.ok { s with consoleLog := s.consoleLog ++ ["Microphone access denied"] }

/-- `leaveVoice` (source lines 175-184): set `joined = false`; stop every
track of the local stream and drop the reference; then `cleanupPeer` on every
key of the Connection Table. -/
def leaveVoice (env : Env) (s : VoiceState) : VoiceState :=
  let s1 := { s with joined := false }
  let s2 :=
    match s1.localStream with
    | some stream =>
      { s1 with
          stoppedTracks := s1.stoppedTracks ++ stream.tracks.map Track.id,
          localStream := none }
    | none => s1
  (keysOf s2.peers).foldl (fun acc id => cleanupPeer env acc id) s2

/-- `toggleLocalMute` (source lines 186-190): guarded on the local stream
reference (NOT on `joined`); toggles `enabled` of every audio track and flips
`localMuted`. -/
def toggleLocalMute (s : VoiceState) : VoiceState :=
  match s.localStream with
  | none => s
  | some stream =>
    { s with
        localStream := some
          { stream with
              tracks := stream.tracks.map (fun t => { t with enabled := !t.enabled }) },
        localMuted := !s.localMuted }

/-- `toggleRemoteMute(socketId)` (source lines 192-199): no-op when no entry;
otherwise `newVal = !remoteMutedMap[socketId]` (a missing key reads as
`undefined`, i.e. `false` here), set the entry's `muted`, the audio element's
`muted`, and the map value to `newVal`. Emits nothing. -/
def toggleRemoteMute (s : VoiceState) (socketId : String) : VoiceState :=
  match lookupKey socketId s.peers with
  | none => s
  | some entry =>
    let newVal := !((lookupKey socketId s.remoteMutedMap).getD false)
    { s with
        peers := setKey socketId
          { entry with muted := newVal, audioEl := { entry.audioEl with muted := newVal } }
          s.peers,
        remoteMutedMap := setKey socketId newVal s.remoteMutedMap }

/-- One step of the membership-reactor effect (source lines 132-149) for one
observed user: skip when not joined, when the user is self, or when an entry
already exists; otherwise build a connection, create and set a local offer
and emit `VOICE_OFFER`; on any failure log and `cleanupPeer` the target. -/
def initiateOfferTo (env : Env) (s : VoiceState) (targetSocketId : String) :
    VoiceState :=
  if !s.joined then s
  else if targetSocketId = env.selfId then s
  else if (lookupKey targetSocketId s.peers).isSome then s
  else
    match createPeerConnection env s targetSocketId with
    | (s1, Except.error _) =>
      cleanupPeer env
        { s1 with consoleLog := s1.consoleLog ++ ["Failed to create offer for"] }
        targetSocketId
    | (s1, Except.ok _) =>
      if env.negotiateOk then
        let s2 := updatePC s1 targetSocketId
          (fun pc => { pc with localDesc := some env.offerPayload })
        { s2 with
            outbox := s2.outbox ++ [OutMsg.voiceOffer env.offerPayload targetSocketId] }
      else
        cleanupPeer env
          { s1 with consoleLog := s1.consoleLog ++ ["Failed to create offer for"] }
          targetSocketId

/-- The component's initial state: no stream, empty table, not joined. -/
def initState : VoiceState :=
  { localStream := none, peers := [], joined := false, localMuted := false,
    remoteMutedMap := [], nextId := 0, domEls := [], stoppedTracks := [],
    outbox := [], consoleLog := [] }

/-- A concrete one-track stream for witnesses. -/
def streamA : MediaStream := { tracks := [{ id := 0, enabled := true }] }

/-- An environment where every browser operation succeeds. -/
def envOk : Env :=
  { gum := some streamA, setRemoteOk := true, negotiateOk := true,
    closeThrows := false, detachThrows := false, answerPayload := 42,
    offerPayload := 41, selfId := "me" }

/-- An environment where microphone acquisition is denied. -/
def envDenied : Env := { envOk with gum := none }

/-! ### Association-list lemmas -/

theorem lookupKey_delKey_self {α : Type} (k : String) (l : List (String × α)) :
    lookupKey k (delKey k l) = none := by
  induction l with
  | nil => rfl
  | cons hd t ih =>
    obtain ⟨a, v⟩ := hd
    by_cases h : a = k
    · simp [delKey, h, ih]
    · simp [delKey, lookupKey, h, ih]

theorem lookupKey_delKey_ne {α : Type} (k k' : String) (l : List (String × α))
    (h : k' ≠ k) : lookupKey k' (delKey k l) = lookupKey k' l := by
  induction l with
  | nil => rfl
  | cons hd t ih =>
    obtain ⟨a, v⟩ := hd
    by_cases ha : a = k
    · subst ha
      have hne : a ≠ k' := fun hc => h (hc ▸ rfl)
      simp [delKey, lookupKey, hne, ih]
    · by_cases ha' : a = k'
      · subst ha'
        simp [delKey, lookupKey, ha, h]
      · simp [delKey, lookupKey, ha, ha', ih]

theorem lookupKey_setKey_self {α : Type} (k : String) (v : α)
    (l : List (String × α)) : lookupKey k (setKey k v l) = some v := by
  simp [setKey, lookupKey]

theorem lookupKey_setKey_ne {α : Type} (k k' : String) (v : α)
    (l : List (String × α)) (h : k' ≠ k) :
    lookupKey k' (setKey k v l) = lookupKey k' l := by
  have : k ≠ k' := fun hc => h (hc ▸ rfl)
  simp [setKey, lookupKey, this, lookupKey_delKey_ne k k' l h]

theorem delKey_of_lookup_none {α : Type} (k : String) (l : List (String × α))
    (h : lookupKey k l = none) : delKey k l = l := by
  induction l with
  | nil => rfl
  | cons hd t ih =>
    obtain ⟨a, v⟩ := hd
    by_cases ha : a = k
    · simp [lookupKey, ha] at h
    · simp [lookupKey, ha] at h
      simp [delKey, ha, ih h]

theorem countKey_delKey_self {α : Type} (k : String) (l : List (String × α)) :
    countKey k (delKey k l) = 0 := by
  induction l with
  | nil => rfl
  | cons hd t ih =>
    obtain ⟨a, v⟩ := hd
    by_cases ha : a = k
    · have hstep : delKey k ((a, v) :: t) = delKey k t := by simp [delKey, ha]
      rw [hstep, ih]
    · have hstep : delKey k ((a, v) :: t) = (a, v) :: delKey k t := by
        simp [delKey, ha]
      rw [hstep]
      have hskip : countKey k ((a, v) :: delKey k t) = countKey k (delKey k t) := by
        simp [countKey, List.filter_cons, ha]
      rw [hskip, ih]

theorem countKey_setKey_self {α : Type} (k : String) (v : α)
    (l : List (String × α)) : countKey k (setKey k v l) = 1 := by
  have h := countKey_delKey_self k l
  simp [setKey, countKey, List.filter_cons] at h ⊢
  exact h

theorem mem_delKey {α : Type} (k : String) (kv : String × α)
    (l : List (String × α)) : kv ∈ delKey k l ↔ kv ∈ l ∧ kv.1 ≠ k := by
  obtain ⟨x, y⟩ := kv
  induction l with
  | nil => simp [delKey]
  | cons hd t ih =>
    obtain ⟨a, v⟩ := hd
    by_cases ha : a = k
    · subst ha
      have hstep : delKey a ((a, v) :: t) = delKey a t := by simp [delKey]
      rw [hstep, ih]
      constructor
      · rintro ⟨h1, h2⟩
        exact ⟨List.mem_cons_of_mem _ h1, h2⟩
      · rintro ⟨h1, h2⟩
        rcases List.mem_cons.mp h1 with h3 | h3
        · exact absurd (congrArg Prod.fst h3) h2
        · exact ⟨h3, h2⟩
    · have hstep : delKey k ((a, v) :: t) = (a, v) :: delKey k t := by
        simp [delKey, ha]
      rw [hstep]
      constructor
      · intro h1
        rcases List.mem_cons.mp h1 with h3 | h3
        · have hx : x = a := congrArg Prod.fst h3
          exact ⟨List.mem_cons.mpr (Or.inl h3), fun hc => ha (hx.symm.trans hc)⟩
        · rcases ih.mp h3 with ⟨h4, h5⟩
          exact ⟨List.mem_cons_of_mem _ h4, h5⟩
      · rintro ⟨h1, h2⟩
        rcases List.mem_cons.mp h1 with h3 | h3
        · exact List.mem_cons.mpr (Or.inl h3)
        · exact List.mem_cons_of_mem _ (ih.mpr ⟨h3, h2⟩)

theorem foldl_delKey_all {α : Type} :
    ∀ (ks : List String) (l : List (String × α)),
      (∀ kv ∈ l, kv.1 ∈ ks) →
      ks.foldl (fun acc k => delKey k acc) l = [] := by
  intro ks
  induction ks with
  | nil =>
    intro l h
    cases l with
    | nil => rfl
    | cons hd t => exact absurd (h hd (List.mem_cons_self hd t)) (by simp)
  | cons k t ih =>
    intro l h
    simp only [List.foldl]
    apply ih
    intro kv hkv
    rcases (mem_delKey k kv l).mp hkv with ⟨hmem, hne⟩
    rcases List.mem_cons.mp (h kv hmem) with h1 | h2
    · exact absurd h1 hne
    · exact h2

/-! ### Structural lemmas about `cleanupPeer` and `leaveVoice` -/

theorem cleanupPeer_peers (env : Env) (s : VoiceState) (p : String) :
    (cleanupPeer env s p).peers = delKey p s.peers := by
  unfold cleanupPeer
  cases h : lookupKey p s.peers with
  | none => exact (delKey_of_lookup_none p s.peers h).symm
  | some e => rfl

theorem cleanupPeer_frame (env : Env) (s : VoiceState) (p : String) :
    (cleanupPeer env s p).joined = s.joined ∧
    (cleanupPeer env s p).localStream = s.localStream ∧
    (cleanupPeer env s p).localMuted = s.localMuted ∧
    (cleanupPeer env s p).stoppedTracks = s.stoppedTracks ∧
    (cleanupPeer env s p).outbox = s.outbox ∧
    (cleanupPeer env s p).consoleLog = s.consoleLog ∧
    (cleanupPeer env s p).nextId = s.nextId := by
  unfold cleanupPeer
  cases lookupKey p s.peers with
  | none => exact ⟨rfl, rfl, rfl, rfl, rfl, rfl, rfl⟩
  | some e => exact ⟨rfl, rfl, rfl, rfl, rfl, rfl, rfl⟩

theorem cleanupPeer_of_lookup_none (env : Env) (s : VoiceState) (p : String)
    (h : lookupKey p s.peers = none) : cleanupPeer env s p = s := by
  unfold cleanupPeer
  rw [h]

theorem cleanupPeer_mutedMap_some (env : Env) (s : VoiceState) (p : String)
    (e : PeerEntry) (h : lookupKey p s.peers = some e) :
    (cleanupPeer env s p).remoteMutedMap = delKey p s.remoteMutedMap := by
  unfold cleanupPeer
  rw [h]

theorem foldl_cleanupPeer_peers (env : Env) :
    ∀ (ks : List String) (s : VoiceState),
      ((ks.foldl (fun acc id => cleanupPeer env acc id) s).peers) =
        ks.foldl (fun acc k => delKey k acc) s.peers := by
  intro ks
  induction ks with
  | nil => intro s; rfl
  | cons k t ih =>
    intro s
    simp only [List.foldl]
    rw [ih, cleanupPeer_peers]

theorem foldl_cleanupPeer_frame (env : Env) :
    ∀ (ks : List String) (s : VoiceState),
      ((ks.foldl (fun acc id => cleanupPeer env acc id) s).joined = s.joined ∧
       (ks.foldl (fun acc id => cleanupPeer env acc id) s).localStream = s.localStream ∧
       (ks.foldl (fun acc id => cleanupPeer env acc id) s).stoppedTracks = s.stoppedTracks ∧
       (ks.foldl (fun acc id => cleanupPeer env acc id) s).localMuted = s.localMuted) := by
  intro ks
  induction ks with
  | nil => intro s; exact ⟨rfl, rfl, rfl, rfl⟩
  | cons k t ih =>
    intro s
    simp only [List.foldl]
    rcases ih (cleanupPeer env s k) with ⟨h1, h2, h3, h4⟩
    rcases cleanupPeer_frame env s k with ⟨g1, g2, g3, g4, g5, g6, g7⟩
    exact ⟨h1.trans g1, h2.trans g2, h3.trans g4, h4.trans g3⟩

theorem leaveVoice_peers (env : Env) (s : VoiceState) :
    (leaveVoice env s).peers = [] := by
  unfold leaveVoice
  cases h : s.localStream with
  | none =>
    simp only [h]
    rw [foldl_cleanupPeer_peers]
    exact foldl_delKey_all _ _ (fun kv hkv => List.mem_map_of_mem Prod.fst hkv)
  | some stream =>
    simp only [h]
    rw [foldl_cleanupPeer_peers]
    exact foldl_delKey_all _ _ (fun kv hkv => List.mem_map_of_mem Prod.fst hkv)

theorem leaveVoice_joined (env : Env) (s : VoiceState) :
    (leaveVoice env s).joined = false := by
  unfold leaveVoice
  cases h : s.localStream with
  | none =>
    simp only [h]
    exact (foldl_cleanupPeer_frame env _ _).1
  | some stream =>
    simp only [h]
    exact (foldl_cleanupPeer_frame env _ _).1

theorem leaveVoice_localStream (env : Env) (s : VoiceState) :
    (leaveVoice env s).localStream = none := by
  unfold leaveVoice
  cases h : s.localStream with
  | none =>
    simp only [h]
    exact (foldl_cleanupPeer_frame env _ _).2.1
  | some stream =>
    simp only [h]
    exact (foldl_cleanupPeer_frame env _ _).2.1

theorem leaveVoice_stoppedTracks (env : Env) (s : VoiceState) :
    (leaveVoice env s).stoppedTracks =
      s.stoppedTracks ++
        (match s.localStream with
         | some stream => stream.tracks.map Track.id
         | none => []) := by
  unfold leaveVoice
  cases h : s.localStream with
  | none =>
    simp only [h]
    rw [(foldl_cleanupPeer_frame env _ _).2.2.1]
    simp
  | some stream =>
    simp only [h]
    rw [(foldl_cleanupPeer_frame env _ _).2.2.1]

theorem setJoinedFalse_eq (s : VoiceState) (h : s.joined = false) :
    { s with joined := false } = s := by
  cases s
  simp_all

theorem leaveVoice_of_reset (env : Env) (s : VoiceState)
    (h1 : s.joined = false) (h2 : s.localStream = none) (h3 : s.peers = []) :
    leaveVoice env s = s := by
  unfold leaveVoice
  rw [setJoinedFalse_eq s h1]
  simp only [h2, h3, keysOf, List.map_nil, List.foldl_nil]

/-! ### Claim C2 -/

/-- Claim C2: after `leaveVoice` the Connection Table is empty, the local
stream is released (every track of the held stream is stopped and the
reference cleared) and `joined` is false; a second `leaveVoice` in a row
changes nothing (and, being a total function, raises nothing). -/
theorem c2_leave_resets (env : Env) (s : VoiceState) :
    (leaveVoice env s).peers = [] ∧
    (leaveVoice env s).joined = false ∧
    (leaveVoice env s).localStream = none ∧
    (leaveVoice env s).stoppedTracks =
      s.stoppedTracks ++
        (match s.localStream with
         | some stream => stream.tracks.map Track.id
         | none => []) ∧
    leaveVoice env (leaveVoice env s) = leaveVoice env s :=
  ⟨leaveVoice_peers env s, leaveVoice_joined env s, leaveVoice_localStream env s,
   leaveVoice_stoppedTracks env s,
   leaveVoice_of_reset env (leaveVoice env s) (leaveVoice_joined env s)
     (leaveVoice_localStream env s) (leaveVoice_peers env s)⟩

/-! ### Claim C6 -/

/-- Claim C6: teardown is safe and idempotent: `cleanupPeer` is a total
function (every inner failure is swallowed by the source's `try {} catch {}`,
embedded as a total match), after it the Connection Table has no entry for
the peer, running it twice equals running it once, and on an unknown peer it
is the identity. -/
theorem c6_teardown_safe (env : Env) (s : VoiceState) (p : String) :
    lookupKey p (cleanupPeer env s p).peers = none ∧
    cleanupPeer env (cleanupPeer env s p) p = cleanupPeer env s p ∧
    (lookupKey p s.peers = none → cleanupPeer env s p = s) := by
  have hnone : lookupKey p (cleanupPeer env s p).peers = none := by
    rw [cleanupPeer_peers]
    exact lookupKey_delKey_self p s.peers
  exact ⟨hnone, cleanupPeer_of_lookup_none env (cleanupPeer env s p) p hnone,
    cleanupPeer_of_lookup_none env s p⟩

/-- Witness for C6 at a concrete input: tearing down a peer that has no
entry in the initial state changes nothing. -/
theorem c6_teardown_safe_witness : cleanupPeer envOk initState "q" = initState :=
  (c6_teardown_safe envOk initState "q").2.2 (by decide)

/-! ### Claim C7 -/

/-- Claim C7: stale answers are silently dropped: with no session for the
sender, `handleAnswer` creates nothing, raises nothing (it is total) and
returns the state unchanged; with a session, the remote description is
applied on success, and on failure the error is logged and dropped with the
session left intact in the table. -/
theorem c7_stale_answer_dropped (env : Env) (s : VoiceState) (a : Nat) (p : String) :
    (lookupKey p s.peers = none → handleAnswer env s a p = s) ∧
    (∀ e, lookupKey p s.peers = some e →
      (env.setRemoteOk = true →
        handleAnswer env s a p =
          { s with peers := setKey p { e with pc := { e.pc with remoteDesc := some a } } s.peers } ∧
        lookupKey p (handleAnswer env s a p).peers =
          some { e with pc := { e.pc with remoteDesc := some a } }) ∧
      (env.setRemoteOk = false →
        handleAnswer env s a p =
          { s with consoleLog := s.consoleLog ++ ["Failed to set remote answer"] } ∧
        lookupKey p (handleAnswer env s a p).peers = some e)) := by
  constructor
  · intro h
    unfold handleAnswer
    rw [h]
  · intro e he
    constructor
    · intro hok
      have hh : handleAnswer env s a p =
          { s with peers := setKey p { e with pc := { e.pc with remoteDesc := some a } } s.peers } := by
        unfold handleAnswer
        rw [he]
        simp [hok]
      refine ⟨hh, ?_⟩
      rw [hh]
      exact lookupKey_setKey_self p _ s.peers
    · intro hbad
      have hh : handleAnswer env s a p =
          { s with consoleLog := s.consoleLog ++ ["Failed to set remote answer"] } := by
        unfold handleAnswer
        rw [he]
        simp [hbad]
      refine ⟨hh, ?_⟩
      rw [hh]
      exact he

/-- The Connection Table entry for peer "p" right after a first successful
inbound offer from "p" on the initial state (used by concrete witnesses). -/
def entryP : PeerEntry :=
  { pc := { id := 0, closed := false, localDesc := some 42, remoteDesc := some 7,
            addedTracks := 1 },
    audioEl := { id := 1, muted := false, srcObject := none },
    muted := false }

/-- Witness for C7 at a concrete input: an answer for an existing session
sets that session's remote description in place. -/
theorem c7_stale_answer_dropped_witness :
    handleAnswer envOk (handleOffer envOk initState 7 "p") 9 "p" =
      { (handleOffer envOk initState 7 "p") with
          peers := setKey "p" { entryP with pc := { entryP.pc with remoteDesc := some 9 } }
            (handleOffer envOk initState 7 "p").peers } :=
  (((c7_stale_answer_dropped envOk (handleOffer envOk initState 7 "p") 9 "p").2
      entryP (by decide)).1 rfl).1

/-! ### Claim C8 -/

/-- Claim C8: no partial registration on capture denial: when no local
stream is held and acquisition fails, `createPeerConnection` propagates the
failure (`Except.error`) and registers nothing: the Connection Table and the
remote-mute map after the failed call equal those before it, and no stream
is retained. -/
theorem c8_no_partial_registration (env : Env) (s : VoiceState) (p : String)
    (h1 : s.localStream = none) (h2 : env.gum = none) :
    (createPeerConnection env s p).2 = Except.error "CaptureDenied" ∧
    (createPeerConnection env s p).1.peers = s.peers ∧
    (createPeerConnection env s p).1.remoteMutedMap = s.remoteMutedMap ∧
    (createPeerConnection env s p).1.localStream = none := by
  unfold createPeerConnection
  simp [h1, h2]

/-- Witness for C8 at a concrete input: denied acquisition on the initial
state propagates the error and leaves the table empty. -/
theorem c8_no_partial_registration_witness :
    (createPeerConnection envDenied initState "p").2 = Except.error "CaptureDenied" ∧
    (createPeerConnection envDenied initState "p").1.peers = initState.peers ∧
    (createPeerConnection envDenied initState "p").1.remoteMutedMap = initState.remoteMutedMap ∧
    (createPeerConnection envDenied initState "p").1.localStream = none :=
  c8_no_partial_registration envDenied initState "p" rfl rfl

/-! ### Claim C3 -/

/-- Counterexample to C3 as stated: with acquisition denied on the initial
(not-joined) state, `joinVoice` does NOT surface the failure to its caller —
the `catch` block only logs, so the call resolves normally (`Except.ok`)
with the error message appended to the console log. -/
theorem c3_counterexample :
    joinVoice envDenied initState =
      Except.ok { initState with consoleLog := ["Microphone access denied"] } := by
  rfl

/-- Amended C3: `joinVoice` is a no-op when already joined; on successful
acquisition it stores the stream and sets `joined = true`,
`localMuted = false`; on acquisition failure it logs the error and returns
normally without rethrowing, leaving all state except the console log
unchanged. -/
theorem c3_amended_join (env : Env) (s : VoiceState) :
    (s.joined = true → joinVoice env s = Except.ok s) ∧
    (∀ stream, s.joined = false → env.gum = some stream →
      joinVoice env s =
        Except.ok { s with localStream := some stream, joined := true,
                           localMuted := false }) ∧
    (s.joined = false → env.gum = none →
      joinVoice env s =
        Except.ok { s with consoleLog := s.consoleLog ++ ["Microphone access denied"] }) := by
  refine ⟨?_, ?_, ?_⟩
  · intro h
    simp [joinVoice, h]
  · intro stream hj hg
    simp [joinVoice, hj, hg]
  · intro hj hg
    simp [joinVoice, hj, hg]

/-- Witness for amended C3 at a concrete input: a successful join on the
initial state. -/
theorem c3_amended_join_witness :
    joinVoice envOk initState =
      Except.ok { initState with localStream := some streamA, joined := true,
                                 localMuted := false } :=
  (c3_amended_join envOk initState).2.1 streamA rfl rfl

/-! ### Claim C4 -/

/-- Counterexample to C4 as stated: after an inbound offer is handled while
not joined, a local stream is held although `joined = false`, and
`toggleLocalMute` is then NOT a no-op: it flips `localMuted`. -/
theorem c4_counterexample :
    (handleOffer envOk initState 7 "p").joined = false ∧
    (handleOffer envOk initState 7 "p").localMuted = false ∧
    (toggleLocalMute (handleOffer envOk initState 7 "p")).localMuted = true := by
  decide

/-- Amended C4: `toggleLocalMute` is guarded on holding a local stream, not
on `joined`: with no stream held it is a no-op; with a stream held (which
can happen while not joined, via the inbound-offer path) it flips
`localMuted` and toggles the enabled state of every held track, leaving
`joined`, the Connection Table, the remote-mute map and the outbox
unchanged. -/
theorem c4_amended_toggle_local (s : VoiceState) :
    (s.localStream = none → toggleLocalMute s = s) ∧
    (∀ stream, s.localStream = some stream →
      (toggleLocalMute s).localMuted = !s.localMuted ∧
      (toggleLocalMute s).localStream =
        some { stream with
                 tracks := stream.tracks.map (fun t => { t with enabled := !t.enabled }) } ∧
      (toggleLocalMute s).joined = s.joined ∧
      (toggleLocalMute s).peers = s.peers ∧
      (toggleLocalMute s).remoteMutedMap = s.remoteMutedMap ∧
      (toggleLocalMute s).outbox = s.outbox) := by
  constructor
  · intro h
    unfold toggleLocalMute
    rw [h]
  · intro stream h
    unfold toggleLocalMute
    rw [h]
    exact ⟨rfl, rfl, rfl, rfl, rfl, rfl⟩

/-- Witness for amended C4 at a concrete input: with the stream acquired via
an inbound offer (while not joined), the toggle flips `localMuted`. -/
theorem c4_amended_toggle_local_witness :
    (toggleLocalMute (handleOffer envOk initState 7 "p")).localMuted =
      !(handleOffer envOk initState 7 "p").localMuted :=
  ((c4_amended_toggle_local (handleOffer envOk initState 7 "p")).2 streamA (by decide)).1

/-! ### Claim C5 -/

/-- Claim C5: `toggleRemoteMute` is strictly local: it never emits an
outbound message and never touches the local stream, `localMuted`, or
`joined`; on a peer with no session it is a no-op; on a peer with a session
(whose map value agrees with the entry's flag, as every reachable state
maintains) it flips exactly that session's `muted` flag and the playback
sink's `muted`, leaving every other key of the table and of the map
unchanged. -/
theorem c5_remote_mute_local_only (s : VoiceState) (p : String) :
    (toggleRemoteMute s p).outbox = s.outbox ∧
    (toggleRemoteMute s p).localStream = s.localStream ∧
    (toggleRemoteMute s p).localMuted = s.localMuted ∧
    (toggleRemoteMute s p).joined = s.joined ∧
    (lookupKey p s.peers = none → toggleRemoteMute s p = s) ∧
    (∀ e, lookupKey p s.peers = some e →
      (lookupKey p s.remoteMutedMap).getD false = e.muted →
      lookupKey p (toggleRemoteMute s p).peers =
        some { e with muted := !e.muted,
                      audioEl := { e.audioEl with muted := !e.muted } } ∧
      lookupKey p (toggleRemoteMute s p).remoteMutedMap = some (!e.muted) ∧
      (∀ q, q ≠ p → lookupKey q (toggleRemoteMute s p).peers = lookupKey q s.peers) ∧
      (∀ q, q ≠ p →
        lookupKey q (toggleRemoteMute s p).remoteMutedMap =
          lookupKey q s.remoteMutedMap)) := by
  have hframe :
      (toggleRemoteMute s p).outbox = s.outbox ∧
      (toggleRemoteMute s p).localStream = s.localStream ∧
      (toggleRemoteMute s p).localMuted = s.localMuted ∧
      (toggleRemoteMute s p).joined = s.joined := by
    unfold toggleRemoteMute
    cases lookupKey p s.peers with
    | none => exact ⟨rfl, rfl, rfl, rfl⟩
    | some e => exact ⟨rfl, rfl, rfl, rfl⟩
  refine ⟨hframe.1, hframe.2.1, hframe.2.2.1, hframe.2.2.2, ?_, ?_⟩
  · intro h
    unfold toggleRemoteMute
    rw [h]
  · intro e he hv
    have hh : toggleRemoteMute s p =
        { s with
            peers := setKey p
              { e with muted := !e.muted,
                       audioEl := { e.audioEl with muted := !e.muted } } s.peers,
            remoteMutedMap := setKey p (!e.muted) s.remoteMutedMap } := by
      simp [toggleRemoteMute, he, hv]
    rw [hh]
    refine ⟨lookupKey_setKey_self p _ s.peers,
      lookupKey_setKey_self p _ s.remoteMutedMap, ?_, ?_⟩
    · intro q hq
      exact lookupKey_setKey_ne p q _ s.peers hq
    · intro q hq
      exact lookupKey_setKey_ne p q _ s.remoteMutedMap hq

/-- Witness for C5 at a concrete input: muting peer "p" right after its
session was built flips its flag and sink mute. -/
theorem c5_remote_mute_local_only_witness :
    lookupKey "p" (toggleRemoteMute (handleOffer envOk initState 7 "p") "p").peers =
      some { entryP with muted := !entryP.muted,
                         audioEl := { entryP.audioEl with muted := !entryP.muted } } :=
  (((c5_remote_mute_local_only (handleOffer envOk initState 7 "p") "p").2.2.2.2.2
      entryP (by decide)) (by decide)).1

/-! ### Claim C1 -/

theorem delKey_delKey_self {α : Type} (k : String) (l : List (String × α)) :
    delKey k (delKey k l) = delKey k l := by
  induction l with
  | nil => rfl
  | cons hd t ih =>
    obtain ⟨a, v⟩ := hd
    by_cases ha : a = k
    · simp [delKey, ha, ih]
    · simp [delKey, ha, ih]

theorem setKey_setKey_self {α : Type} (k : String) (x y : α)
    (l : List (String × α)) : setKey k x (setKey k y l) = setKey k x l := by
  simp [setKey, delKey, delKey_delKey_self]

/-- Characterization of a fully successful `handleOffer` while a local
stream is already held: the table entry for the sender is rebuilt from
scratch with a fresh transport id (`s.nextId`), and an answer is emitted. -/
theorem handleOffer_success_held_stream (env : Env) (s : VoiceState) (o : Nat)
    (p : String) (stream : MediaStream) (hstr : s.localStream = some stream)
    (hr : env.setRemoteOk = true) (hn : env.negotiateOk = true) :
    (handleOffer env s o p).peers =
      setKey p
        { pc := { id := s.nextId, closed := false,
                  localDesc := some env.answerPayload, remoteDesc := some o,
                  addedTracks := stream.tracks.length },
          audioEl := { id := s.nextId + 1, muted := false, srcObject := none },
          muted := false }
        s.peers ∧
    (handleOffer env s o p).nextId = s.nextId + 2 ∧
    (handleOffer env s o p).outbox =
      s.outbox ++ [OutMsg.voiceAnswer env.answerPayload p] := by
  unfold handleOffer createPeerConnection finishBuild updatePC
  simp [hstr, hr, hn, lookupKey_setKey_self, setKey_setKey_self]

/-- Counterexample to C1 as stated: with a session for peer "p" already in
the Connection Table, handling a second inbound offer from "p" does NOT
return the existing session: the table entry afterwards holds a transport
with a different (fresh) id, i.e. a new transport and playback sink were
constructed. -/
theorem c1_counterexample :
    (lookupKey "p" (handleOffer envOk (handleOffer envOk initState 7 "p") 8 "p").peers).map
        (fun e => e.pc.id) ≠
      (lookupKey "p" (handleOffer envOk initState 7 "p").peers).map
        (fun e => e.pc.id) := by
  decide

/-- Amended C1: only the Membership-Reactor path is guarded: when a session
for the peer exists, `initiateOfferTo` is a no-op, but `handleOffer` always
constructs a fresh transport (id `s.nextId`) and playback sink and replaces
the existing table entry with it; since the table is a keyed map, it still
holds exactly one entry for that peer afterwards, but that entry is not the
previously existing session. -/
theorem c1_amended_build (env : Env) (s : VoiceState) (p : String) (o i : Nat)
    (hs : (lookupKey p s.peers).map (fun e => e.pc.id) = some i)
    (hfresh : i ≠ s.nextId)
    (hstream : s.localStream.isSome = true)
    (hr : env.setRemoteOk = true) (hn : env.negotiateOk = true) :
    initiateOfferTo env s p = s ∧
    (lookupKey p (handleOffer env s o p).peers).map (fun e => e.pc.id) =
      some s.nextId ∧
    countKey p (handleOffer env s o p).peers = 1 ∧
    (lookupKey p (handleOffer env s o p).peers).map (fun e => e.pc.id) ≠
      some i := by
  obtain ⟨stream, hstr⟩ := Option.isSome_iff_exists.mp hstream
  have hsome : (lookupKey p s.peers).isSome = true := by
    cases h : lookupKey p s.peers with
    | none => rw [h] at hs; simp at hs
    | some e => rfl
  have hpeers := handleOffer_success_held_stream env s o p stream hstr hr hn
  refine ⟨?_, ?_, ?_, ?_⟩
  · unfold initiateOfferTo
    simp [hsome]
  · rw [hpeers.1, lookupKey_setKey_self]
    rfl
  · rw [hpeers.1]
    exact countKey_setKey_self p _ s.peers
  · rw [hpeers.1, lookupKey_setKey_self]
    intro hc
    exact hfresh (Option.some.inj hc).symm

/-- Witness for amended C1 at a concrete input: a second offer from "p"
replaces the entry built by the first with one holding transport id 2. -/
theorem c1_amended_build_witness :
    initiateOfferTo envOk (handleOffer envOk initState 7 "p") "p" =
      handleOffer envOk initState 7 "p" ∧
    (lookupKey "p"
        (handleOffer envOk (handleOffer envOk initState 7 "p") 8 "p").peers).map
        (fun e => e.pc.id) =
      some (handleOffer envOk initState 7 "p").nextId ∧
    countKey "p" (handleOffer envOk (handleOffer envOk initState 7 "p") 8 "p").peers = 1 ∧
    (lookupKey "p"
        (handleOffer envOk (handleOffer envOk initState 7 "p") 8 "p").peers).map
        (fun e => e.pc.id) ≠ some 0 :=
  c1_amended_build envOk (handleOffer envOk initState 7 "p") "p" 8 0
    (by decide) (by decide) (by decide) rfl rfl

/-! ### Claim C9 -/

/-- Claim C9: the inbound-offer path never consults `joined`: even with
`joined = false`, a successfully handled offer acquires the microphone when
no stream is held, registers a session for the sender in the Connection
Table, and emits an answer back — while `joined` stays false. -/
theorem c9_offer_ignores_joined (env : Env) (s : VoiceState) (o : Nat)
    (p : String) (stream : MediaStream)
    (hj : s.joined = false) (hstream : s.localStream = none)
    (hg : env.gum = some stream)
    (hr : env.setRemoteOk = true) (hn : env.negotiateOk = true) :
    (handleOffer env s o p).joined = false ∧
    (handleOffer env s o p).localStream = some stream ∧
    (lookupKey p (handleOffer env s o p).peers).isSome = true ∧
    (handleOffer env s o p).outbox =
      s.outbox ++ [OutMsg.voiceAnswer env.answerPayload p] := by
  unfold handleOffer createPeerConnection finishBuild updatePC
  simp [hstream, hg, hr, hn, hj, lookupKey_setKey_self]

/-- Witness for C9 at a concrete input: an offer on the never-joined initial
state acquires the stream, registers "p" and answers. -/
theorem c9_offer_ignores_joined_witness :
    (handleOffer envOk initState 7 "p").joined = false ∧
    (handleOffer envOk initState 7 "p").localStream = some streamA ∧
    (lookupKey "p" (handleOffer envOk initState 7 "p").peers).isSome = true ∧
    (handleOffer envOk initState 7 "p").outbox =
      initState.outbox ++ [OutMsg.voiceAnswer envOk.answerPayload "p"] :=
  c9_offer_ignores_joined envOk initState 7 "p" streamA rfl rfl rfl rfl rfl

/-! ### Claim C10 -/

/-- Two string-keyed records have the same key set. -/
def syncedLists (ps : List (String × PeerEntry)) (ms : List (String × Bool)) :
    Prop :=
  ∀ k, (lookupKey k ps).isSome = (lookupKey k ms).isSome

/-- The Connection Table and the per-peer mute map hold exactly the same
peer ids. -/
def syncedMaps (s : VoiceState) : Prop :=
  syncedLists s.peers s.remoteMutedMap

theorem syncedLists_setKey (ps : List (String × PeerEntry))
    (ms : List (String × Bool)) (p : String) (e : PeerEntry) (b : Bool)
    (h : syncedLists ps ms) : syncedLists (setKey p e ps) (setKey p b ms) := by
  intro k
  by_cases hk : k = p
  · subst hk
    rw [lookupKey_setKey_self, lookupKey_setKey_self]
    rfl
  · rw [lookupKey_setKey_ne p k e ps hk, lookupKey_setKey_ne p k b ms hk]
    exact h k

theorem syncedLists_delKey (ps : List (String × PeerEntry))
    (ms : List (String × Bool)) (p : String)
    (h : syncedLists ps ms) : syncedLists (delKey p ps) (delKey p ms) := by
  intro k
  by_cases hk : k = p
  · subst hk
    rw [lookupKey_delKey_self, lookupKey_delKey_self]
    rfl
  · rw [lookupKey_delKey_ne p k ps hk, lookupKey_delKey_ne p k ms hk]
    exact h k

/-- The entry `createPeerConnection` registers when it reaches the
registration step with stream `stream` on state `s`. -/
def entryFor (s : VoiceState) (stream : MediaStream) : PeerEntry :=
  { pc := { id := s.nextId, closed := false, localDesc := none,
            remoteDesc := none, addedTracks := stream.tracks.length },
    audioEl := { id := s.nextId + 1, muted := false, srcObject := none },
    muted := false }

theorem createPeerConnection_held (env : Env) (s : VoiceState) (p : String)
    (stream : MediaStream) (hls : s.localStream = some stream) :
    createPeerConnection env s p =
      ({ s with nextId := s.nextId + 2, domEls := s.domEls ++ [s.nextId + 1],
                peers := setKey p (entryFor s stream) s.peers,
                remoteMutedMap := setKey p false s.remoteMutedMap },
       Except.ok (entryFor s stream)) := by
  simp [createPeerConnection, finishBuild, entryFor, hls]

theorem createPeerConnection_acquire (env : Env) (s : VoiceState) (p : String)
    (stream : MediaStream) (hls : s.localStream = none)
    (hg : env.gum = some stream) :
    createPeerConnection env s p =
      ({ s with localStream := some stream, nextId := s.nextId + 2,
                domEls := s.domEls ++ [s.nextId + 1],
                peers := setKey p (entryFor s stream) s.peers,
                remoteMutedMap := setKey p false s.remoteMutedMap },
       Except.ok (entryFor s stream)) := by
  simp [createPeerConnection, finishBuild, entryFor, hls, hg]

theorem createPeerConnection_denied (env : Env) (s : VoiceState) (p : String)
    (hls : s.localStream = none) (hg : env.gum = none) :
    createPeerConnection env s p =
      ({ s with nextId := s.nextId + 2, domEls := s.domEls ++ [s.nextId + 1],
                consoleLog := s.consoleLog ++ ["Microphone access denied"] },
       Except.error "CaptureDenied") := by
  simp [createPeerConnection, hls, hg]

theorem syncedMaps_cleanupPeer (env : Env) (s : VoiceState) (p : String)
    (h : syncedMaps s) : syncedMaps (cleanupPeer env s p) := by
  unfold cleanupPeer
  cases hl : lookupKey p s.peers with
  | none => exact h
  | some e => exact syncedLists_delKey s.peers s.remoteMutedMap p h

theorem foldl_cleanupPeer_synced (env : Env) :
    ∀ (ks : List String) (s : VoiceState), syncedMaps s →
      syncedMaps (ks.foldl (fun acc id => cleanupPeer env acc id) s) := by
  intro ks
  induction ks with
  | nil => intro s h; exact h
  | cons k t ih =>
    intro s h
    simp only [List.foldl]
    exact ih (cleanupPeer env s k) (syncedMaps_cleanupPeer env s k h)

/-- The state `leaveVoice` reaches right before its cleanup loop: `joined`
cleared, tracks stopped and stream dropped. -/
def preLeave (s : VoiceState) : VoiceState :=
  match s.localStream with
  | some stream =>
    { s with joined := false,
             stoppedTracks := s.stoppedTracks ++ stream.tracks.map Track.id,
             localStream := none }
  | none => { s with joined := false }

theorem leaveVoice_eq_foldl (env : Env) (s : VoiceState) :
    leaveVoice env s =
      (keysOf (preLeave s).peers).foldl (fun acc id => cleanupPeer env acc id)
        (preLeave s) := by
  unfold leaveVoice preLeave
  cases s.localStream with
  | none => rfl
  | some stream => rfl

theorem syncedMaps_preLeave (s : VoiceState) (h : syncedMaps s) :
    syncedMaps (preLeave s) := by
  unfold preLeave
  cases s.localStream with
  | none => exact h
  | some stream => exact h

/-- Claim C10: the per-peer mute map and the Connection Table stay in sync:
starting from any synced state, session build (whether it registers or
fails), teardown, remote-mute toggle and leave all preserve the equality of
key sets, and a newly registered session starts unmuted with its map value
initialized to `false`. -/
theorem c10_maps_in_sync (env : Env) (s : VoiceState) (p : String)
    (h : syncedMaps s) :
    syncedMaps (createPeerConnection env s p).1 ∧
    (∀ e, (createPeerConnection env s p).2 = Except.ok e →
      e.muted = false ∧
      lookupKey p (createPeerConnection env s p).1.peers = some e ∧
      lookupKey p (createPeerConnection env s p).1.remoteMutedMap = some false) ∧
    syncedMaps (cleanupPeer env s p) ∧
    syncedMaps (toggleRemoteMute s p) ∧
    syncedMaps (leaveVoice env s) := by
  refine ⟨?_, ?_, syncedMaps_cleanupPeer env s p h, ?_, ?_⟩
  · cases hls : s.localStream with
    | some stream =>
      rw [createPeerConnection_held env s p stream hls]
      exact syncedLists_setKey s.peers s.remoteMutedMap p _ false h
    | none =>
      cases hg : env.gum with
      | some stream =>
        rw [createPeerConnection_acquire env s p stream hls hg]
        exact syncedLists_setKey s.peers s.remoteMutedMap p _ false h
      | none =>
        rw [createPeerConnection_denied env s p hls hg]
        exact h
  · intro e he
    cases hls : s.localStream with
    | some stream =>
      rw [createPeerConnection_held env s p stream hls] at he ⊢
      have hee : e = entryFor s stream := (Except.ok.inj he).symm
      subst hee
      exact ⟨rfl, lookupKey_setKey_self p _ s.peers,
        lookupKey_setKey_self p _ s.remoteMutedMap⟩
    | none =>
      cases hg : env.gum with
      | some stream =>
        rw [createPeerConnection_acquire env s p stream hls hg] at he ⊢
        have hee : e = entryFor s stream := (Except.ok.inj he).symm
        subst hee
        exact ⟨rfl, lookupKey_setKey_self p _ s.peers,
          lookupKey_setKey_self p _ s.remoteMutedMap⟩
      | none =>
        rw [createPeerConnection_denied env s p hls hg] at he
        exact absurd he (by simp)
  · unfold toggleRemoteMute
    cases hl : lookupKey p s.peers with
    | none => exact h
    | some e => exact syncedLists_setKey s.peers s.remoteMutedMap p _ _ h
  · rw [leaveVoice_eq_foldl]
    exact foldl_cleanupPeer_synced env _ _ (syncedMaps_preLeave s h)

/-- Witness for C10 at a concrete input: building "p" on the (synced)
initial state keeps the maps synced and registers an unmuted entry. -/
theorem c10_maps_in_sync_witness :
    lookupKey "p" (createPeerConnection envOk initState "p").1.peers =
      some (entryFor initState streamA) ∧
    lookupKey "p" (createPeerConnection envOk initState "p").1.remoteMutedMap =
      some false ∧
    syncedMaps (leaveVoice envOk initState) := by
  have h0 : syncedMaps initState := by
    intro k
    rfl
  have h := c10_maps_in_sync envOk initState "p" h0
  have he := h.2.1 (entryFor initState streamA) rfl
  exact ⟨he.2.1, he.2.2, h.2.2.2.2⟩
